import Mathlib

/-!
# Verification of the COVID-19 data-cleaning pipeline (`project.py`)

Shallow embedding of the core data transformation in `analyze_covid_data`:

* rows are records over the source columns (`location`, `date`, the six
  numeric counters, `population`), with `Option ℚ` for possibly-missing
  numeric cells and `Option ℕ` for the (parsed) date;
* the derived ratio columns live in an extended value type `DVal` that
  models a pandas float cell: NaN (the missing / undefined marker),
  ±infinity, or a finite number — numpy division by zero yields ±∞ for a
  nonzero numerator and NaN for 0/0, and never raises;
* `pd.Series.interpolate()` (method `linear`) is positional: it ignores
  the index, treats the values as equally spaced, fills an interior gap
  linearly between the previous and next non-missing values, leaves
  leading missing values unfilled, and clamps trailing missing values to
  the last non-missing value (default `limit_direction='forward'`);
* `groupby('location')` partitions rows by entity preserving the original
  order inside each group, and assignment of the per-group interpolation
  result aligns on the original row index;
* `groupby('location').last()` takes, per group and per column, the last
  non-missing entry in group order;
* the error handling of the driver (lines 153–161) is modelled as a
  function from a pipeline outcome to the list of printed messages.
-/

/-- A pandas float cell for the derived ratio columns: NaN (missing /
undefined marker), ±∞, or a finite value. -/
inductive DVal where
  | nan : DVal
  | inf : DVal
  | ninf : DVal
  | num : ℚ → DVal
deriving DecidableEq, Repr

/-- Tests for the NaN (missing/undefined) marker. -/
def DVal.isNan : DVal → Bool
  | .nan => true
  | _ => false

/-- numpy/pandas elementwise division of two float cells: a missing operand
gives NaN; division by zero gives NaN for `0 / 0` and ±∞ for a nonzero
numerator; it never raises. -/
def pdiv : Option ℚ → Option ℚ → DVal
  | some a, some b =>
      if b = 0 then
        if a = 0 then .nan else if 0 < a then .inf else .ninf
      else .num (a / b)
  | _, _ => .nan

/-- Multiplication of a float cell by the literal `100` (for
`vaccination_rate`). -/
def dmul100 : DVal → DVal
  | .nan => .nan
  | .inf => .inf
  | .ninf => .ninf
  | .num q => .num (100 * q)

/-- One observation row of the data frame.  `location` is the entity key;
`date` is the parsed date (`none` = missing, dropped by cleaning); the six
numeric counters and `population` are possibly-missing rationals.  The two
derived columns are absent in the source file; they are modelled as NaN
cells until the pipeline computes them. -/
structure Row where
  location : String
  date : Option ℕ
  total_cases : Option ℚ
  new_cases : Option ℚ
  total_deaths : Option ℚ
  new_deaths : Option ℚ
  total_vaccinations : Option ℚ
  people_vaccinated : Option ℚ
  population : Option ℚ
  death_rate : DVal := .nan
  vaccination_rate : DVal := .nan
deriving DecidableEq, Repr

/-- A dataset is an ordered sequence of rows. -/
abbrev Dataset := List Row

/-! ## Filtering and date handling (lines 36–42) -/

/-- Line 36: `df[df['location'].isin(selected_countries)]` — keep exactly
the rows whose entity is in the selected list, preserving source order. -/
def filterRows (selected : List String) (d : Dataset) : Dataset :=
  d.filter (fun r => decide (r.location ∈ selected))

/-- Line 39: `dropna(subset=['date'])` — remove rows with a missing date. -/
def dropUndated (d : Dataset) : Dataset :=
  d.filter (fun r => r.date.isSome)

/-! ## Positional linear interpolation (lines 45–47) -/

/-- The cell of a series at position `i` (`none` when out of range or
missing). -/
def cell (xs : List (Option ℚ)) (i : ℕ) : Option ℚ :=
  (xs.get? i).getD none

/-- Position and value of the last non-missing cell strictly before
position `n`. -/
def findPrev (xs : List (Option ℚ)) : ℕ → Option (ℕ × ℚ)
  | 0 => none
  | n + 1 =>
    match cell xs n with
    | some v => some (n, v)
    | none => findPrev xs n

/-- Position and value of the first non-missing cell of `l`, whose head
sits at absolute position `k`. -/
def findNextFrom : List (Option ℚ) → ℕ → Option (ℕ × ℚ)
  | [], _ => none
  | some v :: _, k => some (k, v)
  | none :: rest, k => findNextFrom rest (k + 1)

/-- Position and value of the first non-missing cell strictly after
position `i`. -/
def findNext (xs : List (Option ℚ)) (i : ℕ) : Option (ℕ × ℚ) :=
  findNextFrom (xs.drop (i + 1)) (i + 1)

/-- Pandas `Series.interpolate()` at position `i`: a present value is kept; a
missing value with non-missing neighbours on both sides is filled linearly
by position; a missing value with no earlier non-missing cell stays
missing; a missing value with no later non-missing cell is clamped to the
last non-missing value (pandas default `limit_direction='forward'`). -/
def interpAt (xs : List (Option ℚ)) (i : ℕ) : Option ℚ :=
  match cell xs i with
  | some v => some v
  | none =>
    match findPrev xs i with
    | none => none
    | some (j, a) =>
      match findNext xs i with
      | none => some a
      | some (k, b) => some (a + (b - a) * ((i : ℚ) - (j : ℚ)) / ((k : ℚ) - (j : ℚ)))

/-- Pandas `Series.interpolate()` over a whole series. -/
def interpolate (xs : List (Option ℚ)) : List (Option ℚ) :=
  (List.range xs.length).map (interpAt xs)

/-- The six numeric source columns of line 45. -/
inductive NumCol where
  | total_cases | new_cases | total_deaths | new_deaths
  | total_vaccinations | people_vaccinated
deriving DecidableEq, Repr

/-- Read a numeric column of a row. -/
def getCol : NumCol → Row → Option ℚ
  | .total_cases, r => r.total_cases
  | .new_cases, r => r.new_cases
  | .total_deaths, r => r.total_deaths
  | .new_deaths, r => r.new_deaths
  | .total_vaccinations, r => r.total_vaccinations
  | .people_vaccinated, r => r.people_vaccinated

/-- Write a numeric column of a row. -/
def setCol : NumCol → Row → Option ℚ → Row
  | .total_cases, r, v => { r with total_cases := v }
  | .new_cases, r, v => { r with new_cases := v }
  | .total_deaths, r, v => { r with total_deaths := v }
  | .new_deaths, r, v => { r with new_deaths := v }
  | .total_vaccinations, r, v => { r with total_vaccinations := v }
  | .people_vaccinated, r, v => { r with people_vaccinated := v }

/-- The rows of entity `e`, in source order (a pandas group). -/
def entityRows (d : Dataset) (e : String) : Dataset :=
  d.filter (fun r => decide (r.location = e))

/-- The series of column `c` over entity `e`'s rows, in source order. -/
def colSeries (d : Dataset) (e : String) (c : NumCol) : List (Option ℚ) :=
  (entityRows d e).map (getCol c)

/-- Walk the rows in source order; each row receives the interpolated value
of its entity's series at the row's position inside its group (`cnt`
tracks how many rows of each entity have been passed).  This models the
index-aligned assignment
`df[col] = df.groupby('location')[col].apply(lambda x: x.interpolate())`. -/
def interpGo (c : NumCol) (ser : String → List (Option ℚ)) :
    Dataset → (String → ℕ) → Dataset
  | [], _ => []
  | r :: rest, cnt =>
    setCol c r (interpAt (ser r.location) (cnt r.location)) ::
      interpGo c ser rest
        (fun e => if e = r.location then cnt e + 1 else cnt e)

/-- Line 47 for one column: per-entity positional interpolation, written
back at the original row positions. -/
def interpCol (c : NumCol) (d : Dataset) : Dataset :=
  interpGo c (fun e => colSeries d e c) d (fun _ => 0)

/-- Lines 45–47: interpolate the six numeric columns, one after the
other. -/
def numeric_cols : List NumCol :=
  [.total_cases, .new_cases, .total_deaths, .new_deaths,
   .total_vaccinations, .people_vaccinated]

/-- Lines 46–47: the whole interpolation loop. -/
def interpAll (d : Dataset) : Dataset :=
  numeric_cols.foldl (fun acc c => interpCol c acc) d

/-! ## Residual fill and derived columns (lines 50, 92, 117) -/

/-- Line 50, `fillna(0)`, on one numeric cell. -/
def fill0 (o : Option ℚ) : Option ℚ :=
  some (o.getD 0)

/-- Line 50, `fillna(0)`, on a derived (float) cell: NaN becomes `0`. -/
def dfill0 : DVal → DVal
  | .nan => .num 0
  | v => v

/-- Line 50: `df_filtered.fillna(0)` fills every remaining missing value of
every column with `0` (the date column has no missing values left). -/
def fillRow (r : Row) : Row :=
  { r with
    total_cases := fill0 r.total_cases
    new_cases := fill0 r.new_cases
    total_deaths := fill0 r.total_deaths
    new_deaths := fill0 r.new_deaths
    total_vaccinations := fill0 r.total_vaccinations
    people_vaccinated := fill0 r.people_vaccinated
    population := fill0 r.population
    death_rate := dfill0 r.death_rate
    vaccination_rate := dfill0 r.vaccination_rate }

/-- Lines 92 and 117: derive `death_rate = total_deaths / total_cases` and
`vaccination_rate = people_vaccinated / population * 100`. -/
def deriveRow (r : Row) : Row :=
  { r with
    death_rate := pdiv r.total_deaths r.total_cases
    vaccination_rate := dmul100 (pdiv r.people_vaccinated r.population) }

/-- The cleaned-but-unfilled table: filter, drop undated rows, interpolate
(lines 36–47). -/
def preFill (selected : List String) (d : Dataset) : Dataset :=
  interpAll (dropUndated (filterRows selected d))

/-- The core cleaning transformation, lines 36–117: filter to the selected
entities, drop undated rows, interpolate the six numeric columns
per entity, fill residual missing values with `0`, derive the two ratio
columns. -/
def clean (selected : List String) (d : Dataset) : Dataset :=
  (preFill selected d).map (fun r => deriveRow (fillRow r))

/-! ## Latest-per-entity summary (lines 130–138) -/

/-- Last non-missing entry of a column series (pandas `last()` skips
missing values). -/
def lastSome {α : Type} (xs : List (Option α)) : Option α :=
  xs.reverse.findSome? id

/-- Last non-NaN entry of a derived column series. -/
def lastDVal (xs : List DVal) : DVal :=
  (xs.reverse.find? (fun v => !v.isNan)).getD .nan

/-- Line 130: `groupby('location').last()` as a mapping from entity to its
aggregate row — per column, the last non-missing entry of the entity's
group in source order. -/
def latest (d : Dataset) (e : String) : Option Row :=
  if entityRows d e = [] then none
  else
    let g := entityRows d e
    some
      { location := e
        date := lastSome (g.map Row.date)
        total_cases := lastSome (g.map Row.total_cases)
        new_cases := lastSome (g.map Row.new_cases)
        total_deaths := lastSome (g.map Row.total_deaths)
        new_deaths := lastSome (g.map Row.new_deaths)
        total_vaccinations := lastSome (g.map Row.total_vaccinations)
        people_vaccinated := lastSome (g.map Row.people_vaccinated)
        population := lastSome (g.map Row.population)
        death_rate := lastDVal (g.map Row.death_rate)
        vaccination_rate := lastDVal (g.map Row.vaccination_rate) }

/-- The distinct entities of the table, in order of first appearance. -/
def distinctLocations (d : Dataset) : List String :=
  d.foldl (fun acc r => if r.location ∈ acc then acc else acc ++ [r.location]) []

/-- Line 133: the hardcoded population snapshot list. -/
def snapshotPopulations : List ℚ :=
  [100000000, 330000000, 1400000000]

/-- Line 133: `latest_vaccination_data['population'] = […]` — assigning a
3-element list to the population column of the per-entity summary table.
Succeeds (pairing entities with the constants) only when the summary has
exactly as many rows as the list has elements; otherwise pandas raises a
length-mismatch `ValueError`, modelled as `none`. -/
def assignPopulations (d : Dataset) : Option (List (String × ℚ)) :=
  let es := distinctLocations d
  if es.length = snapshotPopulations.length then
    some (es.zip snapshotPopulations)
  else none

/-- Lines 130–138: the data behind the latest-vaccination-rate bar chart —
per entity, `people_vaccinated` of the per-entity summary divided by the
hardcoded snapshot population, times 100 (line 134).  `none` when the
population assignment of line 133 raises. -/
def latestBarChart (d : Dataset) : Option (List (String × DVal)) :=
  (assignPopulations d).map fun l =>
    l.map fun p =>
      (p.1, dmul100 (pdiv (lastSome ((entityRows d p.1).map Row.people_vaccinated))
        (some p.2)))

/-! ## Driver and error handling (lines 19–23, 153–161) -/

/-- The failure taxonomy of the driver's `except` clauses. -/
inductive PipelineError where
  | datasetNotFound : String → PipelineError
  | missingColumn : String → PipelineError
  | unexpected : String → PipelineError
deriving DecidableEq, Repr

/-- Lines 154–158: the human-readable message printed for each failure
kind. -/
def errorMessage : PipelineError → String
  | .datasetNotFound p =>
      "Error: The file " ++ p ++ " was not found. Please check the file path."
  | .missingColumn c =>
      "Error: A required column is missing: " ++ c ++
        ".  Please ensure the dataset has the necessary columns (date, location, total_cases, etc.)"
  | .unexpected m =>
      "An unexpected error occurred: " ++ m

/-- Line 22: `pd.read_csv(data_path)` — reading a path that resolves to no
file raises `FileNotFoundError`; the filesystem is a finite path → dataset
association. -/
def load (files : List (String × Dataset)) (path : String) :
    Except PipelineError Dataset :=
  match files.lookup path with
  | some d => .ok d
  | none => .error (.datasetNotFound path)

/-- Lines 19–161: run the body, catch any failure at the top level and log
its message, then (in the `finally` clause) print the unconditional
completion notice. -/
def runPipeline (result : Except PipelineError (List String)) : List String :=
  (match result with
   | .ok msgs => msgs
   | .error (.unexpected m) =>
       [errorMessage (.unexpected m), "Please check the data and try again."]
   | .error e => [errorMessage e]) ++
    ["Analysis complete."]

/-! ## Concrete example rows and datasets -/

/-- Tag each row of a list with its position (starting at `n`) via `g`. -/
def tagWith (g : ℕ → Row → Row) : ℕ → Dataset → Dataset
  | _, [] => []
  | n, r :: rest => g n r :: tagWith g (n + 1) rest

/-- A fully-populated source row for entity "A". -/
def exRowA : Row :=
  { location := "A", date := some 20210101, total_cases := some 10,
    new_cases := some 1, total_deaths := some 2, new_deaths := some 0,
    total_vaccinations := some 3, people_vaccinated := some 4,
    population := some 50 }

/-- A fully-populated source row for entity "B". -/
def exRowB : Row :=
  { exRowA with location := "B", date := some 20210102 }

/-- A two-entity example dataset. -/
def exD : Dataset := [exRowA, exRowB]

/-- A source row for entity "A" with a recorded population of `0` and a
positive `people_vaccinated`. -/
def exPopZero : Row :=
  { location := "A", date := some 20210101, total_cases := some 1,
    new_cases := some 0, total_deaths := some 0, new_deaths := some 0,
    total_vaccinations := some 5, people_vaccinated := some 5,
    population := some 0 }

/-- A source row for entity "A" whose population is missing and whose
`people_vaccinated` is positive. -/
def exMissingPop : Row :=
  { location := "A", date := some 20210101, total_cases := some 1,
    new_cases := some 0, total_deaths := some 0, new_deaths := some 0,
    total_vaccinations := some 7, people_vaccinated := some 7,
    population := none }

/-- A scenario row for entity "A" with a given date and `total_cases`. -/
def scenarioRow (dt : ℕ) (tc : Option ℚ) : Row :=
  { location := "A", date := some dt, total_cases := tc, new_cases := some 0,
    total_deaths := some 0, new_deaths := some 0, total_vaccinations := some 0,
    people_vaccinated := some 0, population := some 1 }

/-- The spec's scenario with the rows arriving in date order. -/
def scenarioSorted : Dataset :=
  [scenarioRow 20210101 (some 10), scenarioRow 20210102 none,
   scenarioRow 20210103 (some 30)]

/-- The same three rows with the missing-valued 2021-01-02 row arriving
last in source order. -/
def scenarioUnsorted : Dataset :=
  [scenarioRow 20210103 (some 30), scenarioRow 20210101 (some 10),
   scenarioRow 20210102 none]

/-- A cleaned-style dataset whose "A" rows are out of date order. -/
def exOutOfOrder : Dataset :=
  [{ exRowA with date := some 20210102, total_cases := some 1 },
   { exRowA with date := some 20210101, total_cases := some 5 }]

/-- A cleaned-style dataset whose "A" rows are in date order. -/
def exSorted : Dataset :=
  [{ exRowA with date := some 20210101 }, { exRowA with date := some 20210102 }]

/-! ## Basic lemmas about columns -/

theorem setCol_location (c : NumCol) (r : Row) (v : Option ℚ) :
    (setCol c r v).location = r.location := by
  cases c <;> rfl

theorem setCol_date (c : NumCol) (r : Row) (v : Option ℚ) :
    (setCol c r v).date = r.date := by
  cases c <;> rfl

theorem setCol_population (c : NumCol) (r : Row) (v : Option ℚ) :
    (setCol c r v).population = r.population := by
  cases c <;> rfl

theorem setCol_getCol (c : NumCol) (r : Row) :
    setCol c r (getCol c r) = r := by
  cases c <;> rfl

/-! ## Lemmas about the neighbour searches -/

theorem findPrev_lt (xs : List (Option ℚ)) :
    ∀ n j a, findPrev xs n = some (j, a) → j < n := by
  intro n
  induction n with
  | zero => intro j a h; simp [findPrev] at h
  | succ m ih =>
    intro j a h
    rw [findPrev] at h
    cases hc : cell xs m with
    | some v =>
      rw [hc] at h
      simp at h
      omega
    | none =>
      rw [hc] at h
      exact Nat.lt_succ_of_lt (ih j a h)

theorem findNextFrom_ge :
    ∀ (l : List (Option ℚ)) (k j : ℕ) (v : ℚ),
      findNextFrom l k = some (j, v) → k ≤ j := by
  intro l
  induction l with
  | nil => intro k j v h; simp [findNextFrom] at h
  | cons x rest ih =>
    intro k j v h
    cases x with
    | some w => simp [findNextFrom] at h; omega
    | none =>
      rw [findNextFrom] at h
      have := ih (k + 1) j v h
      omega

theorem findNext_gt (xs : List (Option ℚ)) (i j : ℕ) (v : ℚ)
    (h : findNext xs i = some (j, v)) : i < j := by
  have := findNextFrom_ge (xs.drop (i + 1)) (i + 1) j v h
  omega

theorem interpAt_of_some (xs : List (Option ℚ)) (i : ℕ) (v : ℚ)
    (h : cell xs i = some v) : interpAt xs i = some v := by
  rw [interpAt, h]

/-! ## Structure of the per-column interpolation pass -/

theorem interpGo_filter (c : NumCol) (ser : String → List (Option ℚ)) (e : String) :
    ∀ (d : Dataset) (cnt : String → ℕ),
      (interpGo c ser d cnt).filter (fun r => decide (r.location = e)) =
        tagWith (fun n r => setCol c r (interpAt (ser e) n)) (cnt e)
          (d.filter (fun r => decide (r.location = e))) := by
  intro d
  induction d with
  | nil => intro cnt; rfl
  | cons r rest ih =>
    intro cnt
    rw [interpGo, List.filter_cons, List.filter_cons]
    by_cases he : r.location = e
    · simp [setCol_location, he, ih, tagWith]
    · have he' : ¬(e = r.location) := fun h => he h.symm
      simp [setCol_location, he, he', ih]

theorem interpCol_entityRows (c : NumCol) (d : Dataset) (e : String) :
    entityRows (interpCol c d) e =
      tagWith (fun n r => setCol c r (interpAt (colSeries d e c) n)) 0
        (entityRows d e) := by
  rw [entityRows, interpCol, interpGo_filter]
  rfl

/-- Rows of a per-column pass come from rows of the input, with only that
column changed. -/
theorem interpGo_mem (c : NumCol) (ser : String → List (Option ℚ)) :
    ∀ (d : Dataset) (cnt : String → ℕ) (r' : Row),
      r' ∈ interpGo c ser d cnt → ∃ r ∈ d, ∃ v, r' = setCol c r v := by
  intro d
  induction d with
  | nil => intro cnt r' h; simp [interpGo] at h
  | cons r rest ih =>
    intro cnt r' h
    rw [interpGo] at h
    rcases List.mem_cons.mp h with h1 | h1
    · exact ⟨r, List.mem_cons_self r rest, _, h1⟩
    · rcases ih _ r' h1 with ⟨r0, hr0, v, hv⟩
      exact ⟨r0, List.mem_cons_of_mem r hr0, v, hv⟩

/-- A per-column pass on data whose column has no missing values changes
nothing: each row is given back its own value. -/
theorem interpGo_id (c : NumCol) (ser : String → List (Option ℚ)) :
    ∀ (d : Dataset) (cnt : String → ℕ),
      (∀ e, (ser e).drop (cnt e) =
        (d.filter (fun r => decide (r.location = e))).map (getCol c)) →
      (∀ r ∈ d, (getCol c r).isSome) →
      interpGo c ser d cnt = d := by
  intro d
  induction d with
  | nil => intro cnt _ _; rfl
  | cons r rest ih =>
    intro cnt hser hsome
    obtain ⟨v, hv⟩ := Option.isSome_iff_exists.mp (hsome r (List.mem_cons_self r rest))
    have hd := hser r.location
    have hfil : (r :: rest).filter (fun r' => decide (r'.location = r.location)) =
        r :: rest.filter (fun r' => decide (r'.location = r.location)) := by
      simp [List.filter_cons]
    rw [hfil, List.map_cons] at hd
    have hcell : cell (ser r.location) (cnt r.location) = getCol c r := by
      have h0 : (ser r.location).get? (cnt r.location + 0) =
          ((ser r.location).drop (cnt r.location)).get? 0 := (List.get?_drop _ _ _).symm
      rw [cell, Nat.add_zero] at *
      rw [h0, hd]
      rfl
    have hint : interpAt (ser r.location) (cnt r.location) = getCol c r := by
      rw [hv] at hcell ⊢
      exact interpAt_of_some _ _ _ hcell
    rw [interpGo, hint, setCol_getCol]
    congr 1
    apply ih
    · intro e
      by_cases he : e = r.location
      · subst he
        simp only [eq_self_iff_true, if_true]
        have hdrop : (ser r.location).drop (cnt r.location + 1) =
            ((ser r.location).drop (cnt r.location)).drop 1 := by
          rw [List.drop_drop, Nat.add_comm]
        rw [hdrop, hd, List.drop_one, List.tail_cons]
      · have he' : ¬(r.location = e) := fun h => he h.symm
        simp only [if_neg he]
        have := hser e
        rw [List.filter_cons, if_neg (by simp [he'])] at this
        exact this
    · exact fun r' hr' => hsome r' (List.mem_cons_of_mem r hr')

theorem interpCol_id (c : NumCol) (d : Dataset)
    (h : ∀ r ∈ d, (getCol c r).isSome) : interpCol c d = d := by
  apply interpGo_id
  · intro e; rfl
  · exact h

theorem interpAll_id (d : Dataset)
    (h : ∀ r ∈ d, ∀ c, (getCol c r).isSome) : interpAll d = d := by
  rw [interpAll]
  simp only [numeric_cols, List.foldl_cons, List.foldl_nil]
  rw [interpCol_id _ _ (fun r hr => h r hr _), interpCol_id _ _ (fun r hr => h r hr _),
    interpCol_id _ _ (fun r hr => h r hr _), interpCol_id _ _ (fun r hr => h r hr _),
    interpCol_id _ _ (fun r hr => h r hr _), interpCol_id _ _ (fun r hr => h r hr _)]

/-- Every row of the full interpolation pass descends from an input row
with the same entity, date and population (interpolation touches only the
six numeric columns). -/
theorem foldl_interpCol_mem :
    ∀ (cols : List NumCol) (d : Dataset) (r' : Row),
      r' ∈ cols.foldl (fun acc c => interpCol c acc) d →
      ∃ r ∈ d, r'.location = r.location ∧ r'.date = r.date ∧
        r'.population = r.population := by
  intro cols
  induction cols with
  | nil => intro d r' h; exact ⟨r', h, rfl, rfl, rfl⟩
  | cons c cs ih =>
    intro d r' h
    simp only [List.foldl_cons] at h
    obtain ⟨r1, hr1, h1, h2, h3⟩ := ih (interpCol c d) r' h
    obtain ⟨r0, hr0, v, hv⟩ := interpGo_mem c _ d _ r1 hr1
    subst hv
    exact ⟨r0, hr0, by rw [h1, setCol_location], by rw [h2, setCol_date],
      by rw [h3, setCol_population]⟩

theorem interpAll_mem (d : Dataset) (r' : Row) (h : r' ∈ interpAll d) :
    ∃ r ∈ d, r'.location = r.location ∧ r'.date = r.date ∧
      r'.population = r.population :=
  foldl_interpCol_mem numeric_cols d r' h

/-! ## Residual fill and derivation lemmas -/

theorem deriveFill_fields (r : Row) :
    (deriveRow (fillRow r)).location = r.location ∧
    (deriveRow (fillRow r)).date = r.date ∧
    (deriveRow (fillRow r)).total_cases = some (r.total_cases.getD 0) ∧
    (deriveRow (fillRow r)).new_cases = some (r.new_cases.getD 0) ∧
    (deriveRow (fillRow r)).total_deaths = some (r.total_deaths.getD 0) ∧
    (deriveRow (fillRow r)).new_deaths = some (r.new_deaths.getD 0) ∧
    (deriveRow (fillRow r)).total_vaccinations = some (r.total_vaccinations.getD 0) ∧
    (deriveRow (fillRow r)).people_vaccinated = some (r.people_vaccinated.getD 0) ∧
    (deriveRow (fillRow r)).population = some (r.population.getD 0) ∧
    (deriveRow (fillRow r)).death_rate =
      pdiv (some (r.total_deaths.getD 0)) (some (r.total_cases.getD 0)) ∧
    (deriveRow (fillRow r)).vaccination_rate =
      dmul100 (pdiv (some (r.people_vaccinated.getD 0)) (some (r.population.getD 0))) := by
  refine ⟨rfl, rfl, rfl, rfl, rfl, rfl, rfl, rfl, rfl, rfl, rfl⟩

theorem deriveFill_idem (r : Row) :
    deriveRow (fillRow (deriveRow (fillRow r))) = deriveRow (fillRow r) := rfl

theorem mem_clean (s : List String) (d : Dataset) (r : Row) :
    r ∈ clean s d ↔ ∃ r0 ∈ preFill s d, r = deriveRow (fillRow r0) := by
  constructor
  · intro h
    obtain ⟨r0, hr0, heq⟩ := List.mem_map.mp h
    exact ⟨r0, hr0, heq.symm⟩
  · rintro ⟨r0, hr0, rfl⟩
    exact List.mem_map.mpr ⟨r0, hr0, rfl⟩

/-- Rows that survive filtering / date-dropping / interpolation keep their
entity, a present date, and the population of some source row. -/
theorem preFill_shape (s : List String) (d : Dataset) (r' : Row)
    (h : r' ∈ preFill s d) :
    r'.location ∈ s ∧ r'.date.isSome ∧ ∃ rs ∈ d, r'.population = rs.population := by
  obtain ⟨r, hr, hloc, hdate, hpop⟩ := interpAll_mem _ _ h
  rw [dropUndated, List.mem_filter] at hr
  obtain ⟨hr1, hdate1⟩ := hr
  rw [filterRows, List.mem_filter] at hr1
  obtain ⟨hr2, hloc1⟩ := hr1
  refine ⟨?_, ?_, r, hr2, hpop⟩
  · rw [hloc]; exact of_decide_eq_true hloc1
  · rw [hdate]; exact hdate1

/-- Every row of the cleaned table: entity selected, date present, all six
numeric fields and the population filled. -/
theorem clean_row_shape (s : List String) (d : Dataset) (r : Row)
    (h : r ∈ clean s d) :
    r.location ∈ s ∧ r.date.isSome ∧ (∀ c, (getCol c r).isSome) ∧
      r.population.isSome := by
  obtain ⟨r0, hr0, rfl⟩ := (mem_clean s d r).mp h
  obtain ⟨hloc, hdate, -⟩ := preFill_shape s d r0 hr0
  obtain ⟨h1, h2, h3, h4, h5, h6, h7, h8, h9, -, -⟩ := deriveFill_fields r0
  refine ⟨by rw [h1]; exact hloc, by rw [h2]; exact hdate, ?_, by rw [h9]; rfl⟩
  intro c
  cases c <;> simp [getCol, h3, h4, h5, h6, h7, h8]

/-! ## Example rows used to instantiate the theorems -/

/-! ## C6 — the filter step -/

/-- C6: the filter step keeps exactly the rows whose entity is a member of
the selected set (membership characterisation, no row invented), preserves
the relative source order of kept rows (sublist), and its output does not
depend on the order in which the selected set is given. -/
theorem c6_filter_exact (d : Dataset) (s s' : List String) (hperm : s.Perm s') :
    (∀ r, r ∈ filterRows s d ↔ (r ∈ d ∧ r.location ∈ s)) ∧
    (filterRows s d).Sublist d ∧
    filterRows s d = filterRows s' d := by
  refine ⟨?_, List.filter_sublist d, ?_⟩
  · intro r
    rw [filterRows, List.mem_filter]
    simp
  · rw [filterRows, filterRows]
    apply List.filter_congr
    intro r _
    simp [hperm.mem_iff]

/-- Witness for C6 at a concrete dataset and two orderings of the selected
set. -/
theorem c6_witness :
    (exRowA ∈ filterRows ["A", "B"] exD ↔ (exRowA ∈ exD ∧ exRowA.location ∈ ["A", "B"])) ∧
    (filterRows ["A", "B"] exD).Sublist exD ∧
    filterRows ["A", "B"] exD = filterRows ["B", "A"] exD := by
  have h := c6_filter_exact exD ["A", "B"] ["B", "A"] (by decide)
  exact ⟨h.1 exRowA, h.2.1, h.2.2⟩

/-! ## C4 — output guarantee of `clean` -/

/-- C4: every row of the cleaned table has non-missing values in all six
numeric source fields, a present (valid) date, and an entity in the
selected set.  (The two derived fields always carry a value of the float
cell type `DVal`, possibly the undefined marker, by construction.) -/
theorem c4_clean_output_guarantee (s : List String) (d : Dataset) (r : Row)
    (h : r ∈ clean s d) :
    r.total_cases.isSome ∧ r.new_cases.isSome ∧ r.total_deaths.isSome ∧
    r.new_deaths.isSome ∧ r.total_vaccinations.isSome ∧
    r.people_vaccinated.isSome ∧ r.date.isSome ∧ r.location ∈ s := by
  obtain ⟨hloc, hdate, hcols, -⟩ := clean_row_shape s d r h
  exact ⟨hcols .total_cases, hcols .new_cases, hcols .total_deaths,
    hcols .new_deaths, hcols .total_vaccinations, hcols .people_vaccinated,
    hdate, hloc⟩

/-- Witness for C4 at a concrete dataset. -/
theorem c4_witness :
    (deriveRow (fillRow exRowA)).total_cases.isSome ∧
    (deriveRow (fillRow exRowA)).new_cases.isSome ∧
    (deriveRow (fillRow exRowA)).total_deaths.isSome ∧
    (deriveRow (fillRow exRowA)).new_deaths.isSome ∧
    (deriveRow (fillRow exRowA)).total_vaccinations.isSome ∧
    (deriveRow (fillRow exRowA)).people_vaccinated.isSome ∧
    (deriveRow (fillRow exRowA)).date.isSome ∧
    (deriveRow (fillRow exRowA)).location ∈ ["A"] :=
  c4_clean_output_guarantee ["A"] exD (deriveRow (fillRow exRowA)) (by
    simp [clean, preFill, interpAll, numeric_cols, interpCol, interpGo, colSeries,
      entityRows, filterRows, dropUndated, interpAt, cell, findPrev, findNext,
      findNextFrom, getCol, setCol, fillRow, deriveRow, fill0, dfill0, pdiv,
      dmul100, exRowA, exRowB, exD])

/-! ## C7 — idempotence of `clean` -/

/-- C7: cleaning an already-cleaned dataset with the same selected set
returns it unchanged. -/
theorem c7_clean_idempotent (s : List String) (d : Dataset) :
    clean s (clean s d) = clean s d := by
  have hshape := fun r (hr : r ∈ clean s d) => clean_row_shape s d r hr
  have h1 : filterRows s (clean s d) = clean s d := by
    rw [filterRows]
    apply List.filter_eq_self.mpr
    intro r hr
    exact decide_eq_true (hshape r hr).1
  have h2 : dropUndated (clean s d) = clean s d := by
    rw [dropUndated]
    apply List.filter_eq_self.mpr
    intro r hr
    exact (hshape r hr).2.1
  have h3 : interpAll (clean s d) = clean s d :=
    interpAll_id _ (fun r hr c => (hshape r hr).2.2.1 c)
  show (preFill s (clean s d)).map (fun r => deriveRow (fillRow r)) = clean s d
  rw [preFill, h1, h2, h3]
  conv_lhs => rw [clean]
  rw [List.map_map]
  have hff : (fun r => deriveRow (fillRow r)) ∘ (fun r => deriveRow (fillRow r)) =
      (fun r => deriveRow (fillRow r)) := funext fun r => deriveFill_idem r
  rw [hff]
  rfl

/-! ## C8 — top-level error handling -/

/-- C8: a nonexistent input path makes `load` fail with the
dataset-not-found kind; every pipeline outcome — success or any failure —
ends with the unconditional "Analysis complete." notice (the `finally`
clause), and a failing outcome logs the human-readable message identifying
its failure kind.  The runner is a total function, so no failure crashes
the pipeline. -/
theorem c8_error_handling (files : List (String × Dataset)) (path : String)
    (r : Except PipelineError (List String)) :
    (files.lookup path = none → load files path = .error (.datasetNotFound path)) ∧
    (runPipeline r).getLast? = some "Analysis complete." ∧
    (∀ e, r = .error e → errorMessage e ∈ runPipeline r) := by
  refine ⟨?_, ?_, ?_⟩
  · intro h
    rw [load, h]
  · cases r with
    | ok msgs => exact List.getLast?_concat _
    | error e => cases e <;> exact List.getLast?_concat _
  · rintro e rfl
    cases e <;> simp [runPipeline, errorMessage]

/-- Witness for C8: the empty filesystem and the reference path. -/
theorem c8_witness :
    load [] "owid-covid-data.csv" =
      .error (.datasetNotFound "owid-covid-data.csv") ∧
    (runPipeline (.error (.datasetNotFound "owid-covid-data.csv"))).getLast? =
      some "Analysis complete." ∧
    errorMessage (.datasetNotFound "owid-covid-data.csv") ∈
      runPipeline (.error (.datasetNotFound "owid-covid-data.csv")) :=
  ⟨(c8_error_handling [] "owid-covid-data.csv" (.ok [])).1 rfl,
   (c8_error_handling [] "owid-covid-data.csv"
     (.error (.datasetNotFound "owid-covid-data.csv"))).2.1,
   (c8_error_handling [] "owid-covid-data.csv"
     (.error (.datasetNotFound "owid-covid-data.csv"))).2.2 _ rfl⟩

/-! ## C9 — the hardcoded population snapshot of the summary step -/

/-- C9: assigning the fixed 3-element population list to the per-entity
summary succeeds exactly when the filtered data has exactly 3 distinct
entities; otherwise the assignment fails (a length-mismatch error, absorbed
by the catch-all handler) and the bar chart is never produced.  Even with
exactly 3 entities, the populations paired with the entities are the
hardcoded constants, whatever the dataset's own population values are. -/
theorem c9_population_override (d : Dataset) :
    ((distinctLocations d).length ≠ 3 →
      assignPopulations d = none ∧ latestBarChart d = none) ∧
    ((distinctLocations d).length = 3 →
      assignPopulations d = some ((distinctLocations d).zip snapshotPopulations) ∧
      ((distinctLocations d).zip snapshotPopulations).map Prod.fst =
        distinctLocations d ∧
      ((distinctLocations d).zip snapshotPopulations).map Prod.snd =
        snapshotPopulations) := by
  have hlen : snapshotPopulations.length = 3 := rfl
  constructor
  · intro h
    have hnone : assignPopulations d = none := by
      rw [assignPopulations]
      simp only [hlen]
      exact if_neg h
    exact ⟨hnone, by rw [latestBarChart, hnone]; rfl⟩
  · intro h
    refine ⟨?_, ?_, ?_⟩
    · rw [assignPopulations]
      simp only [hlen]
      exact if_pos h
    · exact List.map_fst_zip _ _ (by rw [h, hlen])
    · exact List.map_snd_zip _ _ (by rw [h, hlen])

/-- Witness for C9: a dataset with two entities (assignment fails) and one
with three (assignment succeeds with the constants). -/
theorem c9_witness :
    (assignPopulations exD = none ∧ latestBarChart exD = none) ∧
    (assignPopulations [exRowA, exRowB, { exRowA with location := "C" }] =
      some [("A", 100000000), ("B", 330000000), ("C", 1400000000)]) := by
  refine ⟨(c9_population_override exD).1 (by decide), ?_⟩
  have h := ((c9_population_override
    [exRowA, exRowB, { exRowA with location := "C" }]).2 (by decide)).1
  rw [h]
  rfl

/-! ## C5 / C10 — division by zero and the residual fill -/

/-- Counterexample for C5: for a row with `population = 0` and a positive
`people_vaccinated`, the derived `vaccination_rate` is positive infinity —
numpy's nonzero-over-zero result — not the not-a-number undefined marker
the claim promises for every zero-denominator row. -/
theorem c5_counterexample :
    (clean ["A"] [exPopZero]).map (fun r => r.vaccination_rate) = [DVal.inf] ∧
    DVal.inf ≠ DVal.nan := by
  constructor
  · simp [clean, preFill, interpAll, numeric_cols, interpCol, interpGo, colSeries,
      entityRows, filterRows, dropUndated, interpAt, cell, findPrev, findNext,
      findNextFrom, getCol, setCol, fillRow, deriveRow, fill0, dfill0, pdiv,
      dmul100, exPopZero]
  · decide

/-- C5 (amended): deriving the ratios never raises (`pdiv` is total); a
zero denominator yields the NaN undefined marker exactly when the numerator
is also zero, and ±infinity for a nonzero numerator; a missing denominator
never survives cleaning (it has been zero-filled), so the same rule
applies. -/
theorem c5_division_semantics (s : List String) (d : Dataset) (r : Row)
    (h : r ∈ clean s d) :
    r.death_rate = pdiv r.total_deaths r.total_cases ∧
    r.vaccination_rate = dmul100 (pdiv r.people_vaccinated r.population) ∧
    (r.population = some 0 → r.people_vaccinated = some 0 →
      r.vaccination_rate = DVal.nan) ∧
    (∀ q : ℚ, r.population = some 0 → r.people_vaccinated = some q → 0 < q →
      r.vaccination_rate = DVal.inf) ∧
    (r.total_cases = some 0 → r.total_deaths = some 0 →
      r.death_rate = DVal.nan) ∧
    (∀ q : ℚ, r.total_cases = some 0 → r.total_deaths = some q → 0 < q →
      r.death_rate = DVal.inf) := by
  obtain ⟨r0, hr0, rfl⟩ := (mem_clean s d r).mp h
  obtain ⟨-, -, h3, -, h5, -, -, h8, h9, h10, h11⟩ := deriveFill_fields r0
  refine ⟨by rw [h10, h5, h3], by rw [h11, h8, h9], ?_, ?_, ?_, ?_⟩
  · intro hpop hpv
    rw [h9, Option.some_inj] at hpop
    rw [h8, Option.some_inj] at hpv
    rw [h11, hpop, hpv]
    rfl
  · intro q hpop hpv hq
    rw [h9, Option.some_inj] at hpop
    rw [h8, Option.some_inj] at hpv
    rw [h11, hpop, hpv]
    simp [pdiv, hq.ne', hq, dmul100]
  · intro htc htd
    rw [h3, Option.some_inj] at htc
    rw [h5, Option.some_inj] at htd
    rw [h10, htc, htd]
    rfl
  · intro q htc htd hq
    rw [h3, Option.some_inj] at htc
    rw [h5, Option.some_inj] at htd
    rw [h10, htc, htd]
    simp [pdiv, hq.ne', hq]

/-- Witness for C5 at a concrete cleaned row (total_cases and total_deaths
both zero, so the death rate is the undefined marker). -/
theorem c5_witness :
    (deriveRow (fillRow { exPopZero with total_cases := some 0 })).death_rate =
      DVal.nan := by
  have h := c5_division_semantics ["A"] [{ exPopZero with total_cases := some 0 }]
    (deriveRow (fillRow { exPopZero with total_cases := some 0 }))
    (by simp [clean, preFill, interpAll, numeric_cols, interpCol, interpGo,
      colSeries, entityRows, filterRows, dropUndated, interpAt, cell, findPrev,
      findNext, findNextFrom, getCol, setCol, fillRow, deriveRow, fill0, dfill0,
      pdiv, dmul100, exPopZero])
  exact h.2.2.2.2.1 rfl rfl

/-- Counterexample for C10: a row with a source-missing population is
zero-filled to `population = 0` (as the claim says), but its
`vaccination_rate` is then positive infinity (`7 / 0`), not the undefined
marker the claim asserts. -/
theorem c10_counterexample :
    (clean ["A"] [exMissingPop]).map (fun r => (r.population, r.vaccination_rate)) =
      [(some 0, DVal.inf)] ∧
    DVal.inf ≠ DVal.nan := by
  constructor
  · simp [clean, preFill, interpAll, numeric_cols, interpCol, interpGo, colSeries,
      entityRows, filterRows, dropUndated, interpAt, cell, findPrev, findNext,
      findNextFrom, getCol, setCol, fillRow, deriveRow, fill0, dfill0, pdiv,
      dmul100, exMissingPop]
  · decide

/-- C10 (amended): the residual zero-fill applies to every column, not only
the six interpolated fields — the population is carried unchanged from a
source row through filtering and interpolation, and a source-missing
population reaches the cleaned row as `0`; the row's `vaccination_rate` is
then the undefined marker when its (filled) `people_vaccinated` is `0`, and
positive infinity when it is positive. -/
theorem c10_residual_fill_population (s : List String) (d : Dataset) (r : Row)
    (h : r ∈ clean s d) :
    ∃ r0 ∈ preFill s d, r = deriveRow (fillRow r0) ∧
      (∃ rs ∈ d, r0.population = rs.population) ∧
      (r0.population = none →
        r.population = some 0 ∧
        (r.people_vaccinated = some 0 → r.vaccination_rate = DVal.nan) ∧
        (∀ q : ℚ, r.people_vaccinated = some q → 0 < q →
          r.vaccination_rate = DVal.inf)) := by
  obtain ⟨r0, hr0, rfl⟩ := (mem_clean s d r).mp h
  obtain ⟨-, -, hpop⟩ := preFill_shape s d r0 hr0
  refine ⟨r0, hr0, rfl, hpop, ?_⟩
  intro hnone
  obtain ⟨-, -, -, -, -, -, -, h8, h9, -, h11⟩ := deriveFill_fields r0
  rw [hnone] at h9 h11
  refine ⟨by rw [h9]; rfl, ?_, ?_⟩
  · intro hpv
    rw [h8, Option.some_inj] at hpv
    rw [h11, hpv]
    rfl
  · intro q hpv hq
    rw [h8, Option.some_inj] at hpv
    rw [h11, hpv]
    simp [pdiv, hq.ne', hq, dmul100]

/-- Witness for C10 at the concrete missing-population row. -/
theorem c10_witness :
    (deriveRow (fillRow exMissingPop)).population = some 0 ∧
    (deriveRow (fillRow exMissingPop)).vaccination_rate = DVal.inf := by
  obtain ⟨r0, hr0, heq, -, hcond⟩ := c10_residual_fill_population ["A"]
    [exMissingPop] (deriveRow (fillRow exMissingPop))
    (by simp [clean, preFill, interpAll, numeric_cols, interpCol, interpGo,
      colSeries, entityRows, filterRows, dropUndated, interpAt, cell, findPrev,
      findNext, findNextFrom, getCol, setCol, fillRow, deriveRow, fill0, dfill0,
      pdiv, dmul100, exMissingPop])
  have hr0' : r0 = exMissingPop := by
    have : preFill ["A"] [exMissingPop] = [exMissingPop] := by
      simp [preFill, interpAll, numeric_cols, interpCol, interpGo, colSeries,
        entityRows, filterRows, dropUndated, interpAt, cell, findPrev, findNext,
        findNextFrom, getCol, setCol, exMissingPop]
    rw [this] at hr0
    exact List.mem_singleton.mp hr0
  subst hr0'
  obtain ⟨hp, -, hinf⟩ := hcond rfl
  rw [← heq] at hp hinf ⊢
  exact ⟨hp, hinf 7 rfl (by norm_num)⟩

/-! ## C3 — interpolation is scoped to a single entity -/

/-- The entity-rows of the interpolation loop depend only on the
entity-rows of the input: folding the per-column passes over two datasets
that agree on entity `e`'s rows gives the same `e`-rows. -/
theorem foldl_interpCol_entity_scoped (cols : List NumCol) :
    ∀ (d1 d2 : Dataset) (e : String),
      entityRows d1 e = entityRows d2 e →
      entityRows (cols.foldl (fun acc c => interpCol c acc) d1) e =
        entityRows (cols.foldl (fun acc c => interpCol c acc) d2) e := by
  induction cols with
  | nil => intro d1 d2 e h; exact h
  | cons c cs ih =>
    intro d1 d2 e h
    simp only [List.foldl_cons]
    apply ih
    have hcs : colSeries d1 e c = colSeries d2 e c := by
      rw [colSeries, colSeries, h]
    rw [interpCol_entityRows, interpCol_entityRows, hcs, h]

/-- C3: interpolation of the numeric fields uses only values from rows of
the same entity — if two datasets agree on entity `e`'s rows (in order),
the interpolation loop produces exactly the same rows for `e`, whatever
the other entities' rows contain. -/
theorem c3_interpolation_entity_scoped (d1 d2 : Dataset) (e : String)
    (h : entityRows d1 e = entityRows d2 e) :
    entityRows (interpAll d1) e = entityRows (interpAll d2) e :=
  foldl_interpCol_entity_scoped numeric_cols d1 d2 e h

/-- Witness for C3: entity "A"'s interpolated rows are unchanged when a
foreign entity row is appended to the dataset. -/
theorem c3_witness :
    entityRows (interpAll [exRowA]) "A" =
      entityRows (interpAll [exRowA, exRowB]) "A" :=
  c3_interpolation_entity_scoped [exRowA] [exRowA, exRowB] "A" (by
    simp [entityRows, exRowA, exRowB])

/-! ## C2 — what interpolation actually computes -/

/-- Counterexample for C2: the interpolation step does not sort the rows by
date.  The 2021-01-02 row of entity "A" is missing `total_cases` and sits
between known values 10 (2021-01-01) and 30 (2021-01-03) in time, so the
claim requires the filled value 20; arriving last in source order, it is
instead clamped to the previous value in source order and receives 10 —
also refuting the claim that a trailing missing value is left unresolved by
this step. -/
theorem c2_counterexample :
    (clean ["A"] scenarioUnsorted).map (fun r => (r.date, r.total_cases)) =
      [(some 20210103, some 30), (some 20210101, some 10),
       (some 20210102, some 10)] ∧
    (10 : ℚ) ≠ 20 := by
  constructor
  · simp [clean, preFill, interpAll, numeric_cols, interpCol, interpGo, colSeries,
      entityRows, filterRows, dropUndated, interpAt, cell, findPrev, findNext,
      findNextFrom, getCol, setCol, fillRow, deriveRow, fill0, dfill0, pdiv,
      dmul100, scenarioUnsorted, scenarioRow]
  · norm_num

/-- C2 (amended): within each entity's row group, interpolation is
positional over the source order (rows are not sorted by date, consecutive
rows count as equally spaced): the spec's scenario — whose source order
happens to coincide with date order — fills 20; a missing position with
non-missing neighbours `(j, a)` and `(k, b)` on both sides in source order
receives `a + (b - a)·(i - j)/(k - j)`, which lies between `a` and `b`; a
missing position with no earlier non-missing value stays unresolved; a
missing position with no later non-missing value is clamped to the last
non-missing value. -/
theorem c2_interpolation_positional :
    ((clean ["A"] scenarioSorted).map (fun r => (r.date, r.total_cases)) =
      [(some 20210101, some 10), (some 20210102, some 20),
       (some 20210103, some 30)]) ∧
    (∀ (xs : List (Option ℚ)) (i j k : ℕ) (a b : ℚ),
      cell xs i = none → findPrev xs i = some (j, a) →
      findNext xs i = some (k, b) →
      interpAt xs i =
        some (a + (b - a) * ((i : ℚ) - (j : ℚ)) / ((k : ℚ) - (j : ℚ))) ∧
      (a ≤ b → a ≤ a + (b - a) * ((i : ℚ) - (j : ℚ)) / ((k : ℚ) - (j : ℚ)) ∧
        a + (b - a) * ((i : ℚ) - (j : ℚ)) / ((k : ℚ) - (j : ℚ)) ≤ b)) ∧
    (∀ (xs : List (Option ℚ)) (i : ℕ), cell xs i = none →
      findPrev xs i = none → interpAt xs i = none) ∧
    (∀ (xs : List (Option ℚ)) (i j : ℕ) (a : ℚ), cell xs i = none →
      findPrev xs i = some (j, a) → findNext xs i = none →
      interpAt xs i = some a) := by
  refine ⟨?_, ?_, ?_, ?_⟩
  · simp [clean, preFill, interpAll, numeric_cols, interpCol, interpGo, colSeries,
      entityRows, filterRows, dropUndated, interpAt, cell, findPrev, findNext,
      findNextFrom, getCol, setCol, fillRow, deriveRow, fill0, dfill0, pdiv,
      dmul100, scenarioSorted, scenarioRow]
    norm_num
  · intro xs i j k a b hc hp hn
    have hj : j < i := findPrev_lt xs i j a hp
    have hk : i < k := findNext_gt xs i k b hn
    refine ⟨by rw [interpAt, hc, hp, hn], ?_⟩
    intro hab
    have h0 : (0 : ℚ) ≤ (i : ℚ) - j := by
      have : (j : ℚ) ≤ i := by exact_mod_cast hj.le
      linarith
    have h1 : (i : ℚ) - j ≤ (k : ℚ) - j := by
      have : (i : ℚ) ≤ k := by exact_mod_cast hk.le
      linarith
    have h2 : (0 : ℚ) < (k : ℚ) - j := by
      have : (j : ℚ) < k := by exact_mod_cast hj.trans hk
      linarith
    have ht0 : 0 ≤ ((i : ℚ) - j) / ((k : ℚ) - j) := div_nonneg h0 h2.le
    have ht1 : ((i : ℚ) - j) / ((k : ℚ) - j) ≤ 1 := (div_le_one h2).mpr h1
    constructor
    · have := mul_nonneg (sub_nonneg.mpr hab) ht0
      rw [mul_div_assoc]
      linarith
    · rw [mul_div_assoc]
      have := mul_le_of_le_one_right (sub_nonneg.mpr hab) ht1
      linarith
  · intro xs i hc hp
    rw [interpAt, hc, hp]
  · intro xs i j a hc hp hn
    rw [interpAt, hc, hp, hn]

/-- Witness for C2 at the concrete series of the spec's scenario. -/
theorem c2_witness : interpAt [some 10, none, some 30] 1 = some 20 := by
  have h := (c2_interpolation_positional.2.1 [some 10, none, some 30]
    1 0 2 10 30 rfl rfl rfl).1
  rw [h]
  norm_num

/-! ## C1 — the latest-per-entity reduction -/

theorem lastSome_concat_some {α : Type} (ys : List (Option α)) (v : α) :
    lastSome (ys ++ [some v]) = some v := by
  simp [lastSome]

/-- Counterexample for C1: on a cleaned dataset whose rows are not sorted
by date, the latest-per-entity reduction returns the date of the *last row
in source order* (2021-01-01), not the maximum date (2021-01-02), which is
present on another row of the same entity. -/
theorem c1_counterexample :
    (clean ["A"] exOutOfOrder).map (fun r => r.date) =
      [some 20210102, some 20210101] ∧
    (latest (clean ["A"] exOutOfOrder) "A").map (fun r => r.date) =
      some (some 20210101) ∧
    (20210101 : ℕ) < 20210102 := by
  refine ⟨?_, ?_, by norm_num⟩
  · simp [clean, preFill, interpAll, numeric_cols, interpCol, interpGo, colSeries,
      entityRows, filterRows, dropUndated, interpAt, cell, findPrev, findNext,
      findNextFrom, getCol, setCol, fillRow, deriveRow, fill0, dfill0, pdiv,
      dmul100, exOutOfOrder, exRowA]
  · simp [latest, lastSome, lastDVal, clean, preFill, interpAll, numeric_cols,
      interpCol, interpGo, colSeries, entityRows, filterRows, dropUndated,
      interpAt, cell, findPrev, findNext, findNextFrom, getCol, setCol, fillRow,
      deriveRow, fill0, dfill0, pdiv, dmul100, exOutOfOrder, exRowA]

/-- C1 (amended): `latest` aggregates, per column, the last non-missing
entry of the entity's group in source order; its date is the date of the
group's last row, and this coincides with the maximum date exactly when the
entity's rows arrive sorted by date — the hypothesis under which the
claim's statement holds. -/
theorem c1_latest_vs_max_date (d : Dataset) (e : String)
    (hne : entityRows d e ≠ [])
    (hdates : ∀ r ∈ entityRows d e, r.date.isSome)
    (hsorted : (entityRows d e).Pairwise
      (fun r1 r2 => r1.date.getD 0 ≤ r2.date.getD 0)) :
    ∃ r m, latest d e = some r ∧ r.date = some m ∧
      (∃ rl, (entityRows d e).getLast? = some rl ∧ rl ∈ entityRows d e ∧
        rl.date = some m) ∧
      ∀ r' ∈ entityRows d e, ∀ x : ℕ, r'.date = some x → x ≤ m := by
  obtain ⟨ys, rlast, hconcat⟩ :=
    (List.eq_nil_or_concat (entityRows d e)).resolve_left hne
  rw [List.concat_eq_append] at hconcat
  have hmem : rlast ∈ entityRows d e := by
    rw [hconcat]
    exact List.mem_append_right _ (List.mem_singleton_self _)
  obtain ⟨m, hm⟩ := Option.isSome_iff_exists.mp (hdates rlast hmem)
  refine ⟨_, m, (by rw [latest, if_neg hne]), ?_, ⟨rlast, ?_, hmem, hm⟩, ?_⟩
  · show lastSome ((entityRows d e).map Row.date) = some m
    rw [hconcat, List.map_append, List.map_singleton, hm]
    exact lastSome_concat_some _ _
  · rw [hconcat]
    exact List.getLast?_concat _
  · intro r' hr' x hx
    rw [hconcat] at hr' hsorted
    rcases List.mem_append.mp hr' with h1 | h1
    · rw [List.pairwise_append] at hsorted
      have hle := hsorted.2.2 r' h1 rlast (List.mem_singleton_self _)
      rw [hx, hm] at hle
      simpa using hle
    · rw [List.mem_singleton] at h1
      subst h1
      rw [hx] at hm
      rw [Option.some_inj.mp hm]

/-- Witness for C1 at a concrete date-sorted dataset. -/
theorem c1_witness :
    ∃ r m, latest exSorted "A" = some r ∧ r.date = some m ∧
      (∃ rl, (entityRows exSorted "A").getLast? = some rl ∧
        rl ∈ entityRows exSorted "A" ∧ rl.date = some m) ∧
      ∀ r' ∈ entityRows exSorted "A", ∀ x : ℕ, r'.date = some x → x ≤ m :=
  c1_latest_vs_max_date exSorted "A" (by decide) (by decide) (by decide)
